import Mathlib

/-!
Verification of the follow-the-light-task repository: a shallow embedding of
the adaptive training controller (`training_protocol.py`), the two trial
state-machine builders (`habituation.py`, `follow_the_light.py`) and the
trial outcome evaluation, together with theorems settling the spec's claims.

The subject's settings are a dynamic attribute-style record (the village
framework's Settings object), embedded as an association list from key to
value; reading an attribute that was never set is an error, embedded as a
`none` lookup. The session history dataframe is embedded as a chronological
list of per-session records (spec section 6: the history store returns the
subject's sessions in chronological order; each session row carries the
"trial" and "correct" columns of its trials).
-/

/-- A value held by one settings attribute: the training protocol stores
numbers, strings and lists of strings. Numbers are embedded as rationals. -/
inductive SVal where
  | num (q : ℚ)
  | str (s : String)
  | strList (l : List String)
deriving DecidableEq

/-- The dynamic settings record: an association list, most recent write first. -/
abbrev SettingsMap := List (String × SVal)

/-- Reading a settings attribute: the most recent write to that key, if any. -/
def lookupSetting (s : SettingsMap) (k : String) : Option SVal :=
  (s.find? (fun p => p.1 == k)).map (fun p => p.2)

/-- Writing a settings attribute (`self.settings.k = v`). -/
def setSetting (s : SettingsMap) (k : String) (v : SVal) : SettingsMap :=
  (k, v) :: s

/-- Reading a settings attribute that must be a number. -/
def lookupNum (s : SettingsMap) (k : String) : Option ℚ :=
  match lookupSetting s k with
  | some (SVal.num q) => some q
  | _ => none

/-- `TrainingProtocol.default_training_settings`: the initial settings for a
new subject, key by key in the order the source sets them. -/
def default_training_settings : SettingsMap :=
  [("next_task", SVal.str "Habituation"),
   ("refractary_period", SVal.num 14400),
   ("minimum_duration", SVal.num 600),
   ("maximum_duration", SVal.num 900),
   ("reward_amount_ml", SVal.num (8/100)),
   ("stage", SVal.num 1),
   ("light_intensity_high", SVal.num 255),
   ("light_intensity_low", SVal.num 50),
   ("trial_types", SVal.strList ["left_easy", "right_easy", "left_hard", "right_hard"]),
   ("punishment_time", SVal.num 1),
   ("iti_time", SVal.num 2),
   ("response_time", SVal.num 10)]

/-- One session of the subject's history dataframe: the task it ran and the
per-trial "trial" and "correct" columns of its rows. -/
structure SessionRecord where
  task : String
  trial : List ℕ
  correct : List Bool
deriving DecidableEq

/-- The placeholder a `getLastD` falls back to; every branch that uses it is
guarded by a length check that rules the fallback out. -/
def emptySession : SessionRecord := { task := "", trial := [], correct := [] }

/-- `df_last_session["trial"].iloc[-1]`: the last value of the session's
"trial" column (the number of trials the session reached). -/
def trialsOf (s : SessionRecord) : ℕ := s.trial.getLastD 0

/-- `df_last_session["correct"].mean()`: the mean of the session's "correct"
column, the trial-level accuracy. -/
def performance (s : SessionRecord) : ℚ :=
  ((s.correct.count true : ℚ)) / ((s.correct.length : ℚ))

/-- The rows of the dataframe whose task column is `t`
(`self.df[self.df["task"] == t]`). -/
def sessionsFor (df : List SessionRecord) (t : String) : List SessionRecord :=
  df.filter (fun r => r.task == t)

/-- `TrainingProtocol.update_training_settings`: called when a session of
`last_task` finishes, with the subject's full history `df`; returns the
mutated settings. -/
def update_training_settings (last_task : String) (df : List SessionRecord)
    (settings : SettingsMap) : SettingsMap :=
  if last_task = "Habituation" then
    let df_habituation := sessionsFor df "Habituation"
    if 2 ≤ df_habituation.length then
      let df_last_session := df_habituation.getLastD emptySession
      if 100 ≤ trialsOf df_last_session then
        setSetting (setSetting settings "next_task" (SVal.str "FollowTheLight"))
          "reward_amount_ml" (SVal.num (7/100))
      else settings
    else settings
  else if last_task = "FollowTheLight" then
    let df_follow_the_light := sessionsFor df "FollowTheLight"
    if 2 ≤ df_follow_the_light.length then
      let df_last_session := df_follow_the_light.getLastD emptySession
      let df_previous_session := df_follow_the_light.dropLast.getLastD emptySession
      if 85/100 ≤ performance df_last_session ∧
          85/100 ≤ performance df_previous_session ∧
          100 ≤ trialsOf df_last_session ∧
          100 ≤ trialsOf df_previous_session then
        setSetting (setSetting settings "stage" (SVal.num 2))
          "reward_amount_ml" (SVal.num (5/100))
      else settings
    else settings
  else settings

/-- The stage-advance criteria of the discrimination rule, as the spec words
them: each of the two most recent FollowTheLight sessions independently has
at least 100 trials and a trial-level accuracy of at least 0.85. -/
def stageUpCriteria (df : List SessionRecord) : Prop :=
  (85/100 ≤ performance ((sessionsFor df "FollowTheLight").getLastD emptySession) ∧
    100 ≤ trialsOf ((sessionsFor df "FollowTheLight").getLastD emptySession)) ∧
  (85/100 ≤ performance ((sessionsFor df "FollowTheLight").dropLast.getLastD emptySession) ∧
    100 ≤ trialsOf ((sessionsFor df "FollowTheLight").dropLast.getLastD emptySession))

instance (df : List SessionRecord) : Decidable (stageUpCriteria df) := by
  unfold stageUpCriteria; infer_instance

/-- A session of the given task with `t` correct and `f` incorrect trials,
whose "trial" column reaches `n`. -/
def mkSession (task : String) (n t f : ℕ) : SessionRecord :=
  { task := task, trial := [n], correct := List.replicate t true ++ List.replicate f false }

/-- Two FollowTheLight sessions with accuracies 0.90 and 0.87 and trial
counts 110 and 150: both clear the stage-advance thresholds. -/
def dfA : List SessionRecord :=
  [mkSession "FollowTheLight" 110 90 10, mkSession "FollowTheLight" 150 87 13]

/-- Two FollowTheLight sessions with accuracies 0.90 and 0.80: the second
misses the accuracy threshold. -/
def dfB : List SessionRecord :=
  [mkSession "FollowTheLight" 110 90 10, mkSession "FollowTheLight" 150 80 20]

/-- Two Habituation sessions, the latest with 120 trials. -/
def dfHab : List SessionRecord :=
  [mkSession "Habituation" 90 0 0, mkSession "Habituation" 120 0 0]

/-- Default settings with the stage raised to 3 (the settings record is
mutable from the GUI; the controller does not own the stage value). -/
def stagedSettings : SettingsMap := setSetting default_training_settings "stage" (SVal.num 3)

/-- `"sub" in s` for character lists: `charsPrefix sub l` is true when `sub`
is a prefix of `l`. -/
def charsPrefix : List Char → List Char → Bool
  | [], _ => true
  | _ :: _, [] => false
  | a :: as, b :: bs => a == b && charsPrefix as bs

/-- `sub` occurs as a contiguous run somewhere in `l`. -/
def charsContain : List Char → List Char → Bool
  | [], sub => charsPrefix sub []
  | c :: rest, sub => charsPrefix sub (c :: rest) || charsContain rest sub

/-- Python's substring test `sub in s`. -/
def strContains (s sub : String) : Bool := charsContain s.data sub.data

/-- One output action asserted on entering a state: a PWM light channel at
an intensity, or a fluid valve. -/
inductive OutputAction where
  | pwm (port : ℕ) (intensity : ℚ)
  | valve (port : ℕ)
deriving DecidableEq

/-- One state added with `self.bpod.add_state`: its name, timer, event to
next-state transitions, and output actions. -/
structure BpodState where
  name : String
  state_timer : ℚ
  state_change_conditions : List (String × String)
  output_actions : List OutputAction
deriving DecidableEq

/-- The five states `FollowTheLight.create_trial` adds, in order, given the
values its branches computed. -/
def FollowTheLight.state_list (light_intensity_high timer_for_response punishment_time iti_time : ℚ)
    (stimulus_state_output : List OutputAction) (left_poke_action right_poke_action : String)
    (valve_to_open : OutputAction) (valve_opening_time : ℚ) : List BpodState :=
  [{ name := "ready_to_initiate", state_timer := 0,
     state_change_conditions := [("Port2In", "stimulus_state")],
     output_actions := [OutputAction.pwm 2 light_intensity_high] },
   { name := "stimulus_state", state_timer := timer_for_response,
     state_change_conditions :=
       [("Port1In", left_poke_action), ("Port3In", right_poke_action), ("Tup", "exit")],
     output_actions := stimulus_state_output },
   { name := "reward_state", state_timer := valve_opening_time,
     state_change_conditions := [("Tup", "iti_state")],
     output_actions := [valve_to_open] },
   { name := "punish_state", state_timer := punishment_time,
     state_change_conditions := [("Tup", "iti_state")],
     output_actions := [] },
   { name := "iti_state", state_timer := iti_time,
     state_change_conditions := [("Tup", "exit")],
     output_actions := [] }]

/-- The trial-type branch of `FollowTheLight.create_trial`: a trial type
containing "left" lights the left port high (plus the right port low when
"hard"), rewards a left poke and sends a right poke to the punish condition;
a trial type containing "right" is symmetric; any other trial type leaves
the poke actions undefined, an error. -/
def FollowTheLight.trial_states (light_intensity_high light_intensity_low : ℚ)
    (timer_for_response punishment_time iti_time : ℚ)
    (this_trial_type punish_condition : String)
    (left_valve_opening_time right_valve_opening_time : ℚ) : Option (List BpodState) :=
  if strContains this_trial_type "left" then
    some (FollowTheLight.state_list light_intensity_high timer_for_response punishment_time
      iti_time
      (OutputAction.pwm 1 light_intensity_high ::
        (if strContains this_trial_type "hard" then [OutputAction.pwm 3 light_intensity_low]
         else []))
      "reward_state" punish_condition (OutputAction.valve 1) left_valve_opening_time)
  else if strContains this_trial_type "right" then
    some (FollowTheLight.state_list light_intensity_high timer_for_response punishment_time
      iti_time
      (OutputAction.pwm 3 light_intensity_high ::
        (if strContains this_trial_type "hard" then [OutputAction.pwm 1 light_intensity_low]
         else []))
      punish_condition "reward_state" (OutputAction.valve 3) right_valve_opening_time)
  else none

/-- `FollowTheLight.create_trial`: reads the settings attributes the source
reads (in particular `timer_for_response`, which `default_training_settings`
never defines) and builds the five-state trial graph; a missing attribute or
an unmatched trial type is an error. The valve opening times come from the
calibration service in `start`, passed through here. -/
def FollowTheLight.create_trial (settings : SettingsMap)
    (this_trial_type punish_condition : String)
    (left_valve_opening_time right_valve_opening_time : ℚ) : Option (List BpodState) :=
  match lookupNum settings "light_intensity_high", lookupNum settings "light_intensity_low",
      lookupNum settings "timer_for_response", lookupNum settings "punishment_time",
      lookupNum settings "iti_time" with
  | some hi, some lo, some tr, some pu, some it =>
      FollowTheLight.trial_states hi lo tr pu it this_trial_type punish_condition
        left_valve_opening_time right_valve_opening_time
  | _, _, _, _, _ => none

/-- The stage-dependent punish condition `FollowTheLight.start` computes once
per session: stage 1 sends an incorrect poke back to the stimulus state, any
other stage to the punish state. -/
def FollowTheLight.punish_condition_of (stage : ℚ) : String :=
  if stage = 1 then "stimulus_state" else "punish_state"

/-- `FollowTheLight.start`: reads the stage setting once per session and
fixes the punish condition reused by every trial of the session. -/
def FollowTheLight.start (settings : SettingsMap) : Option String :=
  (lookupNum settings "stage").map FollowTheLight.punish_condition_of

/-- `Habituation.create_trial`: the four-state habituation graph. -/
def Habituation.create_trial (settings : SettingsMap)
    (left_valve_opening_time right_valve_opening_time : ℚ) : Option (List BpodState) :=
  match lookupNum settings "light_intensity_high" with
  | some hi =>
      some [{ name := "ready_to_initiate", state_timer := 0,
              state_change_conditions := [("Port2In", "stimulus_state")],
              output_actions := [OutputAction.pwm 2 hi] },
            { name := "stimulus_state", state_timer := 0,
              state_change_conditions :=
                [("Port1In", "reward_state_left"), ("Port3In", "reward_state_right")],
              output_actions := [OutputAction.pwm 1 hi, OutputAction.pwm 3 hi] },
            { name := "reward_state_left", state_timer := left_valve_opening_time,
              state_change_conditions := [("Tup", "exit")],
              output_actions := [OutputAction.valve 1] },
            { name := "reward_state_right", state_timer := right_valve_opening_time,
              state_change_conditions := [("Tup", "exit")],
              output_actions := [OutputAction.valve 3] }]
  | none => none

/-- `FollowTheLight.find_first_occurrence`: the first event of the ordered
log that belongs to the target list, or the sentinel "NaN". -/
def find_first_occurrence (event_list : List String) (targets : List String) : String :=
  match event_list with
  | [] => "NaN"
  | event :: rest => if event ∈ targets then event else find_first_occurrence rest targets

/-- The values `FollowTheLight.after_trial` registers for one trial, in the
order the source registers them: water, trial_type, correct. -/
structure TrialResult where
  water : ℚ
  trial_type : String
  correct : Bool
deriving DecidableEq

/-- `FollowTheLight.after_trial`: classifies the trial from the first side
poke of the event log and registers water (always the full reward amount),
the trial type and the correctness flag. -/
def FollowTheLight.after_trial (reward_amount_ml : ℚ) (this_trial_type : String)
    (ordered_list_of_events : List String) : TrialResult :=
  { water := reward_amount_ml,
    trial_type := this_trial_type,
    correct :=
      if find_first_occurrence ordered_list_of_events ["Port1In", "Port3In"] == "Port1In"
          && strContains this_trial_type "left" then true
      else if find_first_occurrence ordered_list_of_events ["Port1In", "Port3In"] == "Port3In"
          && strContains this_trial_type "right" then true
      else false }

/-- The names of a graph's states. -/
def stateNames (g : List BpodState) : List String := g.map (fun st => st.name)

/-- The (source state, target) pairs of every transition of the graph. -/
def condPairs (g : List BpodState) : List (String × String) :=
  g.flatMap (fun st => st.state_change_conditions.map (fun c => (st.name, c.2)))

/-- Every transition target is the terminal marker "exit" or a state of the
same graph. -/
def noDangling (g : List BpodState) : Bool :=
  (condPairs g).all (fun p => p.2 == "exit" || (stateNames g).contains p.2)

/-- One transition step of the graph. -/
def edgeRel (g : List BpodState) (a b : String) : Prop := (a, b) ∈ condPairs g

/-- `b` is reachable from `a` along the graph's transitions. -/
def reachableState (g : List BpodState) (a b : String) : Prop :=
  Relation.ReflTransGen (edgeRel g) a b

/-- The target of the transition out of state `st` on event `ev`. -/
def transitionTarget (g : List BpodState) (st ev : String) : Option String :=
  (g.find? (fun x => x.name == st)).bind
    (fun x => (x.state_change_conditions.find? (fun c => c.1 == ev)).map (fun c => c.2))

/-- The port-entry event of the incorrect side for a trial type. -/
def incorrectEvent (this_trial_type : String) : String :=
  if strContains this_trial_type "left" then "Port3In" else "Port1In"

/-- Settings an operator would run FollowTheLight with: the defaults plus
the `timer_for_response` attribute the task reads. -/
def sessionSettings : SettingsMap :=
  setSetting default_training_settings "timer_for_response" (SVal.num 10)

/-- A concrete FollowTheLight stage-1 left_easy trial graph. -/
def trialGraphStage1 : List BpodState :=
  (FollowTheLight.create_trial sessionSettings "left_easy"
    (FollowTheLight.punish_condition_of 1) (2/100) (2/100)).getD []

/-- A concrete habituation trial graph. -/
def habGraph : List BpodState :=
  (Habituation.create_trial sessionSettings (2/100) (2/100)).getD []

lemma lookupSetting_set_self (s : SettingsMap) (k : String) (v : SVal) :
    lookupSetting (setSetting s k v) k = some v := by
  simp [lookupSetting, setSetting, List.find?]

lemma lookupSetting_set_ne (s : SettingsMap) (k k' : String) (v : SVal) (h : (k == k') = false) :
    lookupSetting (setSetting s k v) k' = lookupSetting s k' := by
  simp [lookupSetting, setSetting, List.find?, h]

/-- `update_training_settings` returns one of three things: the settings
unchanged, the Habituation-rule mutation, or the discrimination-rule
mutation. -/
lemma update_cases (last_task : String) (df : List SessionRecord) (settings : SettingsMap) :
    update_training_settings last_task df settings = settings ∨
    update_training_settings last_task df settings =
      setSetting (setSetting settings "next_task" (SVal.str "FollowTheLight"))
        "reward_amount_ml" (SVal.num (7/100)) ∨
    update_training_settings last_task df settings =
      setSetting (setSetting settings "stage" (SVal.num 2))
        "reward_amount_ml" (SVal.num (5/100)) := by
  simp only [update_training_settings]
  split
  · split
    · split
      · exact Or.inr (Or.inl rfl)
      · exact Or.inl rfl
    · exact Or.inl rfl
  · split
    · split
      · split
        · exact Or.inr (Or.inr rfl)
        · exact Or.inl rfl
      · exact Or.inl rfl
    · exact Or.inl rfl

/-- The Habituation rule fires exactly when at least 2 Habituation sessions
exist and the most recent one reached at least 100 trials. -/
lemma update_hab_fires (df : List SessionRecord) (settings : SettingsMap)
    (h2 : 2 ≤ (sessionsFor df "Habituation").length)
    (hc : 100 ≤ trialsOf ((sessionsFor df "Habituation").getLastD emptySession)) :
    update_training_settings "Habituation" df settings =
      setSetting (setSetting settings "next_task" (SVal.str "FollowTheLight"))
        "reward_amount_ml" (SVal.num (7/100)) := by
  unfold update_training_settings
  rw [if_pos rfl, if_pos h2, if_pos hc]

lemma update_hab_skips (df : List SessionRecord) (settings : SettingsMap)
    (hc : ¬ 100 ≤ trialsOf ((sessionsFor df "Habituation").getLastD emptySession)) :
    update_training_settings "Habituation" df settings = settings := by
  simp only [List.getLastD_eq_getLast?] at hc
  simp [update_training_settings, hc]

/-- The discrimination rule fires exactly when at least 2 FollowTheLight
sessions exist and both recent sessions clear both thresholds. -/
lemma update_ftl_fires (df : List SessionRecord) (settings : SettingsMap)
    (h2 : 2 ≤ (sessionsFor df "FollowTheLight").length)
    (hc : stageUpCriteria df) :
    update_training_settings "FollowTheLight" df settings =
      setSetting (setSetting settings "stage" (SVal.num 2))
        "reward_amount_ml" (SVal.num (5/100)) := by
  obtain ⟨⟨hp1, ht1⟩, ⟨hp2, ht2⟩⟩ := hc
  unfold update_training_settings
  rw [if_neg (by decide), if_pos rfl, if_pos h2, if_pos ⟨hp1, hp2, ht1, ht2⟩]

lemma update_ftl_skips (df : List SessionRecord) (settings : SettingsMap)
    (hc : ¬ stageUpCriteria df) :
    update_training_settings "FollowTheLight" df settings = settings := by
  have hc' : ¬ (85/100 ≤ performance ((sessionsFor df "FollowTheLight").getLastD emptySession) ∧
      85/100 ≤ performance ((sessionsFor df "FollowTheLight").dropLast.getLastD emptySession) ∧
      100 ≤ trialsOf ((sessionsFor df "FollowTheLight").getLastD emptySession) ∧
      100 ≤ trialsOf ((sessionsFor df "FollowTheLight").dropLast.getLastD emptySession)) :=
    fun h => hc ⟨⟨h.1, h.2.2.1⟩, ⟨h.2.1, h.2.2.2⟩⟩
  simp only [update_training_settings]
  rw [if_neg (by decide : ¬ (("FollowTheLight" : String) = "Habituation")), if_pos trivial,
    if_neg hc', ite_self]

lemma sessionsFor_dfA : sessionsFor dfA "FollowTheLight" = dfA := by
  simp [sessionsFor, dfA, mkSession]

lemma sessionsFor_dfB : sessionsFor dfB "FollowTheLight" = dfB := by
  simp [sessionsFor, dfB, mkSession]

lemma sessionsFor_dfHab : sessionsFor dfHab "Habituation" = dfHab := by
  simp [sessionsFor, dfHab, mkSession]

lemma performance_mkSession (task : String) (n t f : ℕ) :
    performance (mkSession task n t f) = (t : ℚ) / ((t : ℚ) + (f : ℚ)) := by
  simp [performance, mkSession, List.count_append, List.count_replicate]

lemma criteriaA : stageUpCriteria dfA := by
  unfold stageUpCriteria
  rw [sessionsFor_dfA]
  refine ⟨⟨?_, ?_⟩, ⟨?_, ?_⟩⟩
  · show 85/100 ≤ performance (mkSession "FollowTheLight" 150 87 13)
    rw [performance_mkSession]; norm_num
  · show 100 ≤ trialsOf (mkSession "FollowTheLight" 150 87 13)
    norm_num [trialsOf, mkSession]
  · show 85/100 ≤ performance (mkSession "FollowTheLight" 110 90 10)
    rw [performance_mkSession]; norm_num
  · show 100 ≤ trialsOf (mkSession "FollowTheLight" 110 90 10)
    norm_num [trialsOf, mkSession]

lemma notCriteriaB : ¬ stageUpCriteria dfB := by
  unfold stageUpCriteria
  rw [sessionsFor_dfB]
  intro h
  have h1 : (85 : ℚ)/100 ≤ performance (mkSession "FollowTheLight" 150 80 20) := h.1.1
  rw [performance_mkSession] at h1
  norm_num at h1

/-- Claim C1, counterexample: with the stage setting at 3 and a history whose
two most recent FollowTheLight sessions meet the stage-advance criteria,
`update_training_settings` writes stage 2, strictly below the stage it
started from — the controller is not a ratchet for stages above 2. -/
theorem stage_ratchet_cex :
    lookupSetting stagedSettings "stage" = some (SVal.num 3) ∧
    lookupSetting (update_training_settings "FollowTheLight" dfA stagedSettings) "stage" =
      some (SVal.num 2) ∧
    (2 : ℚ) < 3 := by
  refine ⟨rfl, ?_, by norm_num⟩
  rw [update_ftl_fires dfA stagedSettings (by rw [sessionsFor_dfA]; norm_num [dfA]) criteriaA]
  rw [lookupSetting_set_ne _ _ _ _ (by decide), lookupSetting_set_self]

/-- Claim C1 (amended): when the stage before the update is at most 2, the
update never decreases it (the only stage the controller ever writes is 2),
and next_task is either left unchanged or moved forward to FollowTheLight,
never back; for a starting stage above 2 the discrimination rule can lower
it to 2, as the counterexample shows. -/
theorem stage_ratchet_amended (last_task : String) (df : List SessionRecord)
    (settings : SettingsMap) (s : ℚ)
    (hs : lookupSetting settings "stage" = some (SVal.num s)) (hle : s ≤ 2) :
    (∃ t : ℚ, lookupSetting (update_training_settings last_task df settings) "stage" =
        some (SVal.num t) ∧ s ≤ t) ∧
    (lookupSetting (update_training_settings last_task df settings) "next_task" =
        lookupSetting settings "next_task" ∨
      lookupSetting (update_training_settings last_task df settings) "next_task" =
        some (SVal.str "FollowTheLight")) := by
  rcases update_cases last_task df settings with h | h | h <;> rw [h]
  · exact ⟨⟨s, hs, le_refl s⟩, Or.inl rfl⟩
  · refine ⟨⟨s, ?_, le_refl s⟩, Or.inr ?_⟩
    · rw [lookupSetting_set_ne _ _ _ _ (by decide), lookupSetting_set_ne _ _ _ _ (by decide)]
      exact hs
    · rw [lookupSetting_set_ne _ _ _ _ (by decide), lookupSetting_set_self]
  · refine ⟨⟨2, ?_, hle⟩, Or.inl ?_⟩
    · rw [lookupSetting_set_ne _ _ _ _ (by decide), lookupSetting_set_self]
    · rw [lookupSetting_set_ne _ _ _ _ (by decide), lookupSetting_set_ne _ _ _ _ (by decide)]

/-- Claim C1, witness for the amended theorem at a concrete input. -/
theorem stage_ratchet_amended_witness :
    (∃ t : ℚ, lookupSetting (update_training_settings "FollowTheLight" dfA default_training_settings)
        "stage" = some (SVal.num t) ∧ (1 : ℚ) ≤ t) ∧
    (lookupSetting (update_training_settings "FollowTheLight" dfA default_training_settings)
        "next_task" = lookupSetting default_training_settings "next_task" ∨
      lookupSetting (update_training_settings "FollowTheLight" dfA default_training_settings)
        "next_task" = some (SVal.str "FollowTheLight")) :=
  stage_ratchet_amended "FollowTheLight" dfA default_training_settings 1 rfl (by norm_num)

/-- Claim C2: with FollowTheLight as the finished task and at least 2
FollowTheLight sessions recorded, the update advances the stage to 2 and
lowers the reward to 0.05 ml exactly when each of the two most recent
FollowTheLight sessions independently has at least 100 trials and a
trial-level accuracy of at least 0.85; otherwise it changes nothing. -/
theorem follow_the_light_stage_up (df : List SessionRecord) (settings : SettingsMap)
    (h2 : 2 ≤ (sessionsFor df "FollowTheLight").length) :
    (stageUpCriteria df →
      update_training_settings "FollowTheLight" df settings =
        setSetting (setSetting settings "stage" (SVal.num 2))
          "reward_amount_ml" (SVal.num (5/100))) ∧
    (¬ stageUpCriteria df →
      update_training_settings "FollowTheLight" df settings = settings) :=
  ⟨fun hc => update_ftl_fires df settings h2 hc,
   fun hc => update_ftl_skips df settings hc⟩

/-- Claim C2, witness: accuracies [0.90, 0.87] with trial counts [110, 150]
advance the stage (1 to 2) and decrease the reward (0.08 to 0.05);
accuracies [0.90, 0.80] leave the settings untouched. -/
theorem follow_the_light_stage_up_witness :
    update_training_settings "FollowTheLight" dfA default_training_settings =
      setSetting (setSetting default_training_settings "stage" (SVal.num 2))
        "reward_amount_ml" (SVal.num (5/100)) ∧
    update_training_settings "FollowTheLight" dfB default_training_settings =
      default_training_settings ∧
    lookupSetting (update_training_settings "FollowTheLight" dfA default_training_settings)
      "stage" = some (SVal.num 2) ∧
    lookupSetting default_training_settings "stage" = some (SVal.num 1) ∧
    lookupSetting (update_training_settings "FollowTheLight" dfA default_training_settings)
      "reward_amount_ml" = some (SVal.num (5/100)) ∧
    lookupSetting default_training_settings "reward_amount_ml" = some (SVal.num (8/100)) ∧
    (1 : ℚ) < 2 ∧ (5/100 : ℚ) < 8/100 := by
  have hA := follow_the_light_stage_up dfA default_training_settings
    (by rw [sessionsFor_dfA]; norm_num [dfA])
  have hB := follow_the_light_stage_up dfB default_training_settings
    (by rw [sessionsFor_dfB]; norm_num [dfB])
  have h1 := hA.1 criteriaA
  have h2 := hB.2 notCriteriaB
  refine ⟨h1, h2, ?_, rfl, ?_, rfl, by norm_num, by norm_num⟩
  · rw [h1, lookupSetting_set_ne _ _ _ _ (by decide), lookupSetting_set_self]
  · rw [h1, lookupSetting_set_self]

/-- Claim C3: with Habituation as the finished task and at least 2
Habituation sessions recorded, the update reads the trial count of the most
recent Habituation session only, and exactly when that count is at least 100
it switches next_task to FollowTheLight and lowers the reward to 0.07 ml;
otherwise it changes nothing. -/
theorem habituation_progression (df : List SessionRecord) (settings : SettingsMap)
    (h2 : 2 ≤ (sessionsFor df "Habituation").length) :
    (100 ≤ trialsOf ((sessionsFor df "Habituation").getLastD emptySession) →
      update_training_settings "Habituation" df settings =
        setSetting (setSetting settings "next_task" (SVal.str "FollowTheLight"))
          "reward_amount_ml" (SVal.num (7/100))) ∧
    (¬ 100 ≤ trialsOf ((sessionsFor df "Habituation").getLastD emptySession) →
      update_training_settings "Habituation" df settings = settings) :=
  ⟨fun hc => update_hab_fires df settings h2 hc,
   fun hc => update_hab_skips df settings hc⟩

/-- Claim C3, witness: after 2 Habituation sessions whose latest reached 120
trials, next_task becomes FollowTheLight and the reward drops from 0.08 to
0.07 ml. -/
theorem habituation_progression_witness :
    lookupSetting (update_training_settings "Habituation" dfHab default_training_settings)
      "next_task" = some (SVal.str "FollowTheLight") ∧
    lookupSetting default_training_settings "next_task" = some (SVal.str "Habituation") ∧
    lookupSetting (update_training_settings "Habituation" dfHab default_training_settings)
      "reward_amount_ml" = some (SVal.num (7/100)) ∧
    lookupSetting default_training_settings "reward_amount_ml" = some (SVal.num (8/100)) ∧
    (7/100 : ℚ) < 8/100 := by
  have h := habituation_progression dfHab default_training_settings
    (by rw [sessionsFor_dfHab]; norm_num [dfHab])
  have h1 := h.1 (by rw [sessionsFor_dfHab]; norm_num [dfHab, mkSession, trialsOf])
  refine ⟨?_, rfl, ?_, rfl, by norm_num⟩
  · rw [h1, lookupSetting_set_ne _ _ _ _ (by decide), lookupSetting_set_self]
  · rw [h1, lookupSetting_set_self]

/-- Claim C9: when fewer than 2 sessions of the finished task exist, or the
finished task is neither Habituation nor FollowTheLight, the update mutates
nothing: the settings record after the call is exactly the one before. -/
theorem update_no_mutation (last_task : String) (df : List SessionRecord)
    (settings : SettingsMap)
    (h : (last_task ≠ "Habituation" ∧ last_task ≠ "FollowTheLight") ∨
      (last_task = "Habituation" ∧ (sessionsFor df "Habituation").length < 2) ∨
      (last_task = "FollowTheLight" ∧ (sessionsFor df "FollowTheLight").length < 2)) :
    update_training_settings last_task df settings = settings := by
  rcases h with ⟨h1, h2⟩ | ⟨h1, h2⟩ | ⟨h1, h2⟩
  · simp [update_training_settings, h1, h2]
  · subst h1
    simp [update_training_settings, not_le.mpr h2]
  · subst h1
    simp only [update_training_settings]
    rw [if_neg (by decide : ¬ (("FollowTheLight" : String) = "Habituation")), if_pos trivial,
      if_neg (not_le.mpr h2)]

/-- Claim C9, witness: a finished task the controller has no rule for leaves
the settings record untouched. -/
theorem update_no_mutation_witness :
    update_training_settings "Simple" dfA default_training_settings =
      default_training_settings :=
  update_no_mutation "Simple" dfA default_training_settings (Or.inl ⟨by decide, by decide⟩)

lemma create_trial_shape (settings : SettingsMap) (tt pc : String) (vl vr : ℚ)
    (g : List BpodState)
    (hg : FollowTheLight.create_trial settings tt pc vl vr = some g) :
    ∃ hi lo tr pu it : ℚ,
      FollowTheLight.trial_states hi lo tr pu it tt pc vl vr = some g := by
  unfold FollowTheLight.create_trial at hg
  cases hA : lookupNum settings "light_intensity_high" <;> rw [hA] at hg
  · exact Option.noConfusion hg
  cases hB : lookupNum settings "light_intensity_low" <;> rw [hB] at hg
  · exact Option.noConfusion hg
  cases hC : lookupNum settings "timer_for_response" <;> rw [hC] at hg
  · exact Option.noConfusion hg
  cases hD : lookupNum settings "punishment_time" <;> rw [hD] at hg
  · exact Option.noConfusion hg
  cases hE : lookupNum settings "iti_time" <;> rw [hE] at hg
  · exact Option.noConfusion hg
  exact ⟨_, _, _, _, _, hg⟩

lemma condPairs_state_list (hi tr pu it : ℚ) (out : List OutputAction) (la ra : String)
    (v : OutputAction) (vt : ℚ) :
    condPairs (FollowTheLight.state_list hi tr pu it out la ra v vt) =
    [("ready_to_initiate", "stimulus_state"), ("stimulus_state", la),
     ("stimulus_state", ra), ("stimulus_state", "exit"),
     ("reward_state", "iti_state"), ("punish_state", "iti_state"), ("iti_state", "exit")] := rfl

lemma pco_one : FollowTheLight.punish_condition_of 1 = "stimulus_state" := rfl

lemma pco_ge2 (stage : ℚ) (h : 2 ≤ stage) :
    FollowTheLight.punish_condition_of stage = "punish_state" := by
  unfold FollowTheLight.punish_condition_of
  rw [if_neg (by intro h1; rw [h1] at h; norm_num at h)]

lemma notReachable_of_no_edge_into (g : List BpodState) (a b : String) (hab : a ≠ b)
    (h : ∀ p ∈ condPairs g, p.2 ≠ b) : ¬ reachableState g a b := by
  intro hr
  rcases Relation.ReflTransGen.cases_tail hr with h1 | ⟨c, _, hcb⟩
  · exact hab h1.symm
  · exact h _ hcb rfl

/-- Claim C4: for every trial of a session, the target of the
incorrect-first-response transition out of the stimulus state is the punish
condition the session's `start` derived from the stage setting: stage 1 maps
it back to the stimulus state and leaves the punish state unreachable from
the stimulus state; stage 2 or above maps it to the punish state, making
both reward and punish reachable from the stimulus state. -/
theorem stage_policy_rewiring (stage : ℚ) (settings : SettingsMap) (this_trial_type : String)
    (vl vr : ℚ) (g : List BpodState)
    (htt : this_trial_type ∈ ["left_easy", "right_easy", "left_hard", "right_hard"])
    (hg : FollowTheLight.create_trial settings this_trial_type
      (FollowTheLight.punish_condition_of stage) vl vr = some g) :
    (stage = 1 →
      transitionTarget g "stimulus_state" (incorrectEvent this_trial_type) =
        some "stimulus_state" ∧
      ¬ reachableState g "stimulus_state" "punish_state") ∧
    (2 ≤ stage →
      transitionTarget g "stimulus_state" (incorrectEvent this_trial_type) =
        some "punish_state" ∧
      reachableState g "stimulus_state" "reward_state" ∧
      reachableState g "stimulus_state" "punish_state") := by
  obtain ⟨hi, lo, tr, pu, it, hts⟩ := create_trial_shape settings _ _ vl vr g hg
  constructor
  · intro hstage
    rw [hstage, pco_one] at hts
    fin_cases htt <;>
    · simp only [FollowTheLight.trial_states,
        show strContains "left_easy" "left" = true from rfl,
        show strContains "left_hard" "left" = true from rfl,
        show strContains "right_easy" "left" = false from rfl,
        show strContains "right_easy" "right" = true from rfl,
        show strContains "right_hard" "left" = false from rfl,
        show strContains "right_hard" "right" = true from rfl,
        if_true, if_false, Bool.false_eq_true, Option.some.injEq, ite_true, ite_false] at hts
      subst hts
      exact ⟨rfl, notReachable_of_no_edge_into _ _ _ (by decide)
        (by rw [condPairs_state_list]; decide)⟩
  · intro hstage
    rw [pco_ge2 stage hstage] at hts
    fin_cases htt <;>
    · simp only [FollowTheLight.trial_states,
        show strContains "left_easy" "left" = true from rfl,
        show strContains "left_hard" "left" = true from rfl,
        show strContains "right_easy" "left" = false from rfl,
        show strContains "right_easy" "right" = true from rfl,
        show strContains "right_hard" "left" = false from rfl,
        show strContains "right_hard" "right" = true from rfl,
        if_true, if_false, Bool.false_eq_true, Option.some.injEq, ite_true, ite_false] at hts
      subst hts
      refine ⟨rfl, ?_, ?_⟩
      · exact Relation.ReflTransGen.single
          (show edgeRel _ _ _ from by unfold edgeRel; rw [condPairs_state_list]; decide)
      · exact Relation.ReflTransGen.single
          (show edgeRel _ _ _ from by unfold edgeRel; rw [condPairs_state_list]; decide)

/-- Claim C4, witness: a concrete stage-1 left_easy trial graph. -/
theorem stage_policy_rewiring_witness :
    transitionTarget trialGraphStage1 "stimulus_state" (incorrectEvent "left_easy") =
      some "stimulus_state" ∧
    ¬ reachableState trialGraphStage1 "stimulus_state" "punish_state" :=
  (stage_policy_rewiring 1 sessionSettings "left_easy" (2/100) (2/100)
    trialGraphStage1 (by decide) rfl).1 rfl

/-- Claim C10: every transition target named by any state of a graph built
by either builder — Habituation or FollowTheLight, under any settings, any
trial type and any stage — is the terminal marker "exit" or the name of
another state of the same graph. -/
theorem builder_no_dangling (settings : SettingsMap) (stage : ℚ) (this_trial_type : String)
    (vl vr vhl vhr : ℚ) (g gh : List BpodState)
    (hg : FollowTheLight.create_trial settings this_trial_type
      (FollowTheLight.punish_condition_of stage) vl vr = some g)
    (hgh : Habituation.create_trial settings vhl vhr = some gh) :
    noDangling g = true ∧ noDangling gh = true := by
  constructor
  · obtain ⟨hi, lo, tr, pu, it, hts⟩ := create_trial_shape settings _ _ vl vr g hg
    have hpc : FollowTheLight.punish_condition_of stage = "stimulus_state" ∨
        FollowTheLight.punish_condition_of stage = "punish_state" := by
      unfold FollowTheLight.punish_condition_of
      split
      · exact Or.inl rfl
      · exact Or.inr rfl
    by_cases hL : strContains this_trial_type "left"
    · simp only [FollowTheLight.trial_states, hL, if_true, ite_true,
        Option.some.injEq] at hts
      subst hts
      rcases hpc with hpc | hpc <;> rw [hpc] <;> rfl
    · by_cases hR : strContains this_trial_type "right"
      · simp only [FollowTheLight.trial_states, hL, hR, if_true, if_false,
          Bool.false_eq_true, ite_true, ite_false, Option.some.injEq] at hts
        subst hts
        rcases hpc with hpc | hpc <;> rw [hpc] <;> rfl
      · simp only [FollowTheLight.trial_states, hL, hR, Bool.false_eq_true,
          ite_false, if_false] at hts
        exact Option.noConfusion hts
  · unfold Habituation.create_trial at hgh
    cases hA : lookupNum settings "light_intensity_high" <;> rw [hA] at hgh
    · exact Option.noConfusion hgh
    · obtain rfl := Option.some.inj hgh
      rfl

/-- Claim C10, witness: concrete graphs from both builders. -/
theorem builder_no_dangling_witness :
    noDangling trialGraphStage1 = true ∧ noDangling habGraph = true :=
  builder_no_dangling sessionSettings 1 "left_easy" (2/100) (2/100) (2/100) (2/100)
    trialGraphStage1 habGraph rfl rfl

/-- Claim C5: the source sets the stimulus-state timer from the settings
attribute `timer_for_response`, but the training protocol defines the
response window as `response_time` (10 s); under the protocol's own default
settings the attribute read fails and FollowTheLight cannot build any trial
graph, so the stimulus timer never equals the configured response window. -/
theorem timer_for_response_missing :
    lookupSetting default_training_settings "timer_for_response" = none ∧
    lookupSetting default_training_settings "response_time" = some (SVal.num 10) ∧
    FollowTheLight.create_trial default_training_settings "left_easy"
      (FollowTheLight.punish_condition_of 1) (2/100) (2/100) = none :=
  ⟨rfl, rfl, rfl⟩

/-- Claim C6: the first-occurrence scan is a linear, order-preserving,
first-match search: for every event list and target list it returns the
first element of the list that belongs to the targets — the list splits at
that element with no earlier match — and the sentinel "NaN" when no element
matches; on the log [Port2In, Port3In, Port1In] with targets
{Port1In, Port3In} it returns Port3In, and on a log with no target events
it returns the sentinel. -/
theorem find_first_occurrence_spec :
    (∀ (event_list targets : List String),
      (find_first_occurrence event_list targets = "NaN" ∧
        ∀ e ∈ event_list, e ∉ targets) ∨
      (find_first_occurrence event_list targets ∈ targets ∧
        ∃ pre post, event_list = pre ++ find_first_occurrence event_list targets :: post ∧
          ∀ e ∈ pre, e ∉ targets)) ∧
    find_first_occurrence ["Port2In", "Port3In", "Port1In"] ["Port1In", "Port3In"] =
      "Port3In" ∧
    find_first_occurrence ["Port2In", "Tup"] ["Port1In", "Port3In"] = "NaN" := by
  refine ⟨?_, rfl, rfl⟩
  intro l ts
  induction l with
  | nil => exact Or.inl ⟨rfl, by simp⟩
  | cons e rest ih =>
    by_cases he : e ∈ ts
    · right
      rw [show find_first_occurrence (e :: rest) ts = e from by
        simp [find_first_occurrence, he]]
      exact ⟨he, [], rest, rfl, by simp⟩
    · have hf : find_first_occurrence (e :: rest) ts = find_first_occurrence rest ts := by
        simp [find_first_occurrence, he]
      rcases ih with ⟨h1, h2⟩ | ⟨h1, h2⟩
      · left
        refine ⟨hf.trans h1, ?_⟩
        intro x hx
        rcases List.mem_cons.mp hx with rfl | hx
        · exact he
        · exact h2 x hx
      · right
        rw [hf]
        obtain ⟨pre, post, hsplit, hpre⟩ := h2
        refine ⟨h1, e :: pre, post, ?_, ?_⟩
        · rw [List.cons_append]
          exact congrArg (List.cons e) hsplit
        · intro x hx
          rcases List.mem_cons.mp hx with rfl | hx
          · exact he
          · exact hpre x hx

/-- Claim C7, counterexample: an event log with no qualifying response (the
sentinel case) produces a trial record identical to that of an
incorrect-side response — the "omitted" case is recorded as correct = false,
not as a distinct outcome. -/
theorem omission_not_distinct_cex :
    find_first_occurrence ["Port2In"] ["Port1In", "Port3In"] = "NaN" ∧
    FollowTheLight.after_trial (8/100) "left_easy" ["Port2In"] =
      FollowTheLight.after_trial (8/100) "left_easy" ["Port3In"] ∧
    (FollowTheLight.after_trial (8/100) "left_easy" ["Port2In"]).correct = false :=
  ⟨rfl, rfl, rfl⟩

/-- Claim C7 (amended): the outcome recorded after a trial is the single
boolean `correct`: true exactly when the first qualifying response is on
the side the trial type implies; a first response on the other side and a
log with no qualifying response (the sentinel case) are both recorded as
correct = false — omissions are not distinguished from incorrect trials. -/
theorem after_trial_outcomes (reward_amount_ml : ℚ) (this_trial_type : String)
    (events : List String) :
    ((FollowTheLight.after_trial reward_amount_ml this_trial_type events).correct = true ↔
      ((find_first_occurrence events ["Port1In", "Port3In"] = "Port1In" ∧
          strContains this_trial_type "left" = true) ∨
        (find_first_occurrence events ["Port1In", "Port3In"] = "Port3In" ∧
          strContains this_trial_type "right" = true))) ∧
    (find_first_occurrence events ["Port1In", "Port3In"] = "NaN" →
      (FollowTheLight.after_trial reward_amount_ml this_trial_type events).correct = false) := by
  constructor
  · simp only [FollowTheLight.after_trial]
    by_cases h1 : find_first_occurrence events ["Port1In", "Port3In"] = "Port1In"
    · rw [h1]
      cases h3 : strContains this_trial_type "left" <;>
        simp [h3]
    · by_cases h2 : find_first_occurrence events ["Port1In", "Port3In"] = "Port3In"
      · rw [h2]
        cases h4 : strContains this_trial_type "right" <;>
          simp [h4]
      · simp [beq_eq_false_iff_ne.mpr h1, beq_eq_false_iff_ne.mpr h2, h1, h2]
  · intro hs
    simp only [FollowTheLight.after_trial, hs]
    rfl

/-- Claim C8: the trial record always carries a water measurement, but it is
the full reward volume even on a trial whose first response was incorrect
and delivered no water — the recorded water is not the delivered volume. -/
theorem water_always_full_amount :
    (FollowTheLight.after_trial (8/100) "left_easy" ["Port3In"]).correct = false ∧
    (FollowTheLight.after_trial (8/100) "left_easy" ["Port3In"]).water = 8/100 ∧
    (8/100 : ℚ) ≠ 0 := by
  refine ⟨rfl, rfl, by norm_num⟩
